import Mathlib

/-!
Verification of the TradingBot paper-trading engine.

Shallow embedding of the signal-confirmation and risk/lifecycle engine:
`44%bot/core/trade_simulator.py`, `paper_trading/core/position_manager.py`,
`paper_trading/database/queries.py` and the confluence/sweep detectors of
`paper_trading/backtest.py`.  Python `Decimal` arithmetic is exact, so it is
embedded as `ℚ`.  Database rows are explicit structures; the row updates of
`queries.py` are pure functions from row to row.
-/

namespace TradingBot

/-- Trade direction, `'LONG'`/`'SHORT'` strings in the source. -/
inductive Direction
  | LONG
  | SHORT
deriving DecidableEq

/-- Directional bias, `'BULLISH'`/`'BEARISH'` strings in the source. -/
inductive Bias
  | BULLISH
  | BEARISH
deriving DecidableEq

/-- Stop-loss source, `'5M_SWING'`/`'4H_SWING'` strings in the source. -/
inductive StopSource
  | FIVE_M_SWING
  | FOUR_H_SWING
deriving DecidableEq

/-- Swing type, `'LOW'`/`'HIGH'` strings in the source. -/
inductive SwingType
  | LOW
  | HIGH
deriving DecidableEq

/-- Timeframe, `'5M'`/`'4H'` strings in the source. -/
inductive Timeframe
  | TF5M
  | TF4H
deriving DecidableEq

/-- `StopLossConfig.BUFFER_BELOW_LOW = Decimal('0.002')` (0.2 percent, LONG). -/
def BUFFER_BELOW_LOW : ℚ := 2 / 1000

/-- `StopLossConfig.BUFFER_ABOVE_HIGH = Decimal('0.003')` (0.3 percent, SHORT). -/
def BUFFER_ABOVE_HIGH : ℚ := 3 / 1000

/-- `StopLossConfig.MIN_RR_RATIO = Decimal('1.0')` (1:1 minimum). -/
def MIN_RR : ℚ := 1

/-- `TradeSimulator.calculate_stop_with_buffer`: stop beyond the swing level,
0.2 percent below a LONG swing low, 0.3 percent above a SHORT swing high.
The `ValueError` branch for other direction strings is unreachable because
`Direction` has exactly the two valid constructors. -/
def calculate_stop_with_buffer (swing_price : ℚ) (direction : Direction) : ℚ :=
  match direction with
  | .LONG => swing_price * (1 - BUFFER_BELOW_LOW)
  | .SHORT => swing_price * (1 + BUFFER_ABOVE_HIGH)

/-- Python `abs()` on exact decimals, written as an explicit sign test so that
it evaluates by `simp` on concrete rationals. -/
def absQ (x : ℚ) : ℚ := if x < 0 then -x else x

/-- `TradeSimulator.calculate_distance_percent`. -/
def calculate_distance_percent (entry_price stop_price : ℚ) : ℚ :=
  absQ (entry_price - stop_price) / entry_price * 100

/-- Result of `TradeSimulator.is_valid_stop` (a dict in the source). -/
structure StopValidation where
  valid : Bool
  distance : ℚ
  reason : String
deriving DecidableEq

/-- `TradeSimulator.is_valid_stop`: no distance constraints, always valid. -/
def is_valid_stop (entry_price stop_price : ℚ) : StopValidation :=
  { valid := true
    distance := calculate_distance_percent entry_price stop_price
    reason := "Stop at swing level (no distance constraints)" }

/-- `TradeSimulator.is_stop_on_correct_side`. -/
def is_stop_on_correct_side (entry_price stop_price : ℚ) (direction : Direction) : Bool :=
  match direction with
  | .LONG => decide (stop_price < entry_price)
  | .SHORT => decide (stop_price > entry_price)

/-- `TradeSimulator.calculate_minimum_take_profit`: 1:1 target from the stop
distance (`MIN_RR_RATIO = 1.0`). -/
def calculate_minimum_take_profit (entry_price stop_price : ℚ) (direction : Direction) : ℚ :=
  let stop_distance := absQ (entry_price - stop_price)
  let target_distance := stop_distance * MIN_RR
  match direction with
  | .LONG => entry_price + target_distance
  | .SHORT => entry_price - target_distance

/-- `PositionSize` as constructed by `calculate_position_size` (fields `btc`,
`usd`, `risk_amount`, `stop_distance`, `stop_distance_percent`). -/
structure PositionSize where
  btc : ℚ
  usd : ℚ
  risk_amount : ℚ
  stop_distance : ℚ
  stop_distance_percent : ℚ
deriving DecidableEq

/-- `TradeSimulator.calculate_position_size`: 1 percent fixed-risk sizing with
explicit input validation.  `ValueError` raises are embedded as `.error`. -/
def calculate_position_size (account_balance entry_price stop_loss : ℚ) :
    Except String PositionSize :=
  if account_balance ≤ 0 then .error "Account balance must be positive"
  else if entry_price ≤ 0 then .error "Entry price must be positive"
  else if stop_loss ≤ 0 then .error "Stop loss must be positive"
  else
    let risk_amount := account_balance * (1 / 100)
    let stop_distance := absQ (entry_price - stop_loss)
    if stop_distance = 0 then .error "Stop loss cannot equal entry price"
    else
      let position_btc := risk_amount / stop_distance
      let position_usd := position_btc * entry_price
      let stop_distance_percent := stop_distance / entry_price * 100
      .ok { btc := position_btc
            usd := position_usd
            risk_amount := risk_amount
            stop_distance := stop_distance
            stop_distance_percent := stop_distance_percent }

/-- A row of the `swing_levels` table as returned by `get_swing_levels`
(`database/queries.py`): price plus the `candle_time` ordering key. -/
structure SwingRow where
  price : ℚ
  candle_time : ℕ
deriving DecidableEq

/-- The active rows of the `swing_levels` table, split by timeframe and swing
type, each list ordered by `candle_time DESC` (most recent first) exactly as
the `ORDER BY` of `get_swing_levels` returns them. -/
structure SwingDB where
  fiveM_low : List SwingRow
  fiveM_high : List SwingRow
  fourH_low : List SwingRow
  fourH_high : List SwingRow
deriving DecidableEq

/-- `get_swing_levels(timeframe, swing_type, limit)`: the matching active
rows, most recent first, truncated to `limit`. -/
def get_swing_levels (db : SwingDB) (timeframe : Timeframe) (swing_type : SwingType)
    (limit : ℕ) : List SwingRow :=
  match timeframe, swing_type with
  | .TF5M, .LOW => db.fiveM_low.take limit
  | .TF5M, .HIGH => db.fiveM_high.take limit
  | .TF4H, .LOW => db.fourH_low.take limit
  | .TF4H, .HIGH => db.fourH_high.take limit

/-- `StopLossResult` with the five fields `calculate_stop_loss` actually
fills (`price`, `source`, `swing_price`, `distance_percent`,
`minimum_take_profit`). -/
structure StopLossResult where
  price : ℚ
  source : StopSource
  swing_price : ℚ
  distance_percent : ℚ
  minimum_take_profit : ℚ
deriving DecidableEq

/-- One arm of `calculate_stop_loss`: try the most recent swing of `rows`
(the `swings[0]` taken from a `limit=1` query), buffer it, and accept it when
`is_valid_stop` (always true) and `is_stop_on_correct_side` hold. -/
def try_swing_stop (entry_price : ℚ) (direction : Direction) (source : StopSource)
    (rows : List SwingRow) : Option StopLossResult :=
  match rows.head? with
  | none => none
  | some sw =>
    let stop := calculate_stop_with_buffer sw.price direction
    let validation := is_valid_stop entry_price stop
    if validation.valid && is_stop_on_correct_side entry_price stop direction then
      some { price := stop
             source := source
             swing_price := sw.price
             distance_percent := validation.distance
             minimum_take_profit := calculate_minimum_take_profit entry_price stop direction }
    else none

/-- The `expected_direction` local of `calculate_stop_loss` (also the
`direction` local of `execute_paper_trade`):
`'LONG' if bias == 'BULLISH' else 'SHORT'`. -/
def expected_direction (bias : Bias) : Direction :=
  match bias with
  | .BULLISH => Direction.LONG
  | .BEARISH => Direction.SHORT

/-- The `swing_type` local of `calculate_stop_loss`:
`'LOW' if direction == 'LONG' else 'HIGH'`. -/
def swing_type_for (direction : Direction) : SwingType :=
  match direction with
  | .LONG => SwingType.LOW
  | .SHORT => SwingType.HIGH

/-- `TradeSimulator.calculate_stop_loss`: direction/bias validation
(`ValueError` as `.error`), then the 5M swing from `get_swing_levels('5M',
type, limit=1)`, then the 4H fallback, then `None` (reject). -/
def calculate_stop_loss (entry_price : ℚ) (direction : Direction) (bias : Bias)
    (db : SwingDB) : Except String (Option StopLossResult) :=
  if direction ≠ expected_direction bias then .error "Direction does not match bias"
  else
    let swing_type := swing_type_for direction
    match try_swing_stop entry_price direction .FIVE_M_SWING
        (get_swing_levels db .TF5M swing_type 1) with
    | some result => .ok (some result)
    | none =>
      match try_swing_stop entry_price direction .FOUR_H_SWING
          (get_swing_levels db .TF4H swing_type 1) with
      | some result => .ok (some result)
      | none => .ok none

/-- The configuration constants the simulator reads.  `FIXED_SLIPPAGE_PERCENT`
matches `Config.FIXED_SLIPPAGE_PERCENT` of `paper_trading/config.py`.
`FEE_PERCENT` is modelled from the spec: `trade_simulator.py` reads
`config.FEE_PERCENT`, and the config module of the `44%bot` package is not
under `src/`; the spec describes it as the fixed taker-fee rate applied to
notional.  Both are kept as parameters so theorems hold for any rates. -/
structure BotConfig where
  FIXED_SLIPPAGE_PERCENT : ℚ
  FEE_PERCENT : ℚ
deriving DecidableEq

/-- `TradeSimulator.apply_slippage`: entries and exits both fill strictly
worse than quote by the fixed slippage fraction. -/
def apply_slippage (price : ℚ) (direction : Direction) (is_entry : Bool)
    (cfg : BotConfig) : ℚ :=
  let slippage_percent := cfg.FIXED_SLIPPAGE_PERCENT
  if is_entry then
    match direction with
    | .LONG => price * (1 + slippage_percent)
    | .SHORT => price * (1 - slippage_percent)
  else
    match direction with
    | .LONG => price * (1 - slippage_percent)
    | .SHORT => price * (1 + slippage_percent)

/-- `TradeSimulator.calculate_fee`: `position_usd * config.FEE_PERCENT`. -/
def calculate_fee (position_usd : ℚ) (cfg : BotConfig) : ℚ :=
  position_usd * cfg.FEE_PERCENT

/-- The `paper_trading_config` row fields `execute_paper_trade` reads. -/
structure PaperConfig where
  account_balance : ℚ
deriving DecidableEq

/-- The fields of a confluence signal that `execute_paper_trade` reads. -/
structure Signal where
  id : ℕ
  bias : Bias
deriving DecidableEq

/-- The `trade_data` row inserted into `paper_trades` by
`execute_paper_trade` (the `risk_reward` field is the dict key
`risk_reward_ratio`). -/
structure TradeData where
  confluence_id : ℕ
  direction : Direction
  entry_price : ℚ
  stop_loss : ℚ
  take_profit : ℚ
  position_size_btc : ℚ
  position_size_usd : ℚ
  risk_amount_usd : ℚ
  risk_reward : ℚ
  stop_loss_source : StopSource
  stop_loss_swing_price : ℚ
  stop_loss_distance_percent : ℚ
  entry_slippage_percent : ℚ
  entry_fee_usd : ℚ
deriving DecidableEq

/-- `TradeSimulator.execute_paper_trade`: the full acceptance path.  Any
exception (`ValueError`, missing paper config, `DivisionByZero` in the
`rr_ratio` quotient) is caught by the surrounding `try` and yields `None`;
`insert_paper_trade` is a raw SQL insert, so the returned `TradeData` is
exactly the persisted row.  `calculate_fee position.usd` reads the notional
field; it is modelled from the spec: the source writes
`position.position_usd` while the record is built with field `usd`, and the
spec names this value the position notional. -/
def execute_paper_trade (signal : Signal) (current_price : ℚ) (db : SwingDB)
    (paper_config : Option PaperConfig) (cfg : BotConfig) : Option TradeData :=
  let direction := expected_direction signal.bias
  match calculate_stop_loss current_price direction signal.bias db with
  | .error _ => none
  | .ok none => none
  | .ok (some stop_result) =>
    match paper_config with
    | none => none
    | some pc =>
      match calculate_position_size pc.account_balance current_price stop_result.price with
      | .error _ => none
      | .ok position =>
        let entry_price_with_slippage := apply_slippage current_price direction true cfg
        let entry_fee := calculate_fee position.usd cfg
        let take_profit := stop_result.minimum_take_profit
        let stop_distance := absQ (entry_price_with_slippage - stop_result.price)
        let target_distance := absQ (take_profit - entry_price_with_slippage)
        if stop_distance = 0 then none
        else
          some { confluence_id := signal.id
                 direction := direction
                 entry_price := entry_price_with_slippage
                 stop_loss := stop_result.price
                 take_profit := take_profit
                 position_size_btc := position.btc
                 position_size_usd := position.usd
                 risk_amount_usd := position.risk_amount
                 risk_reward := target_distance / stop_distance
                 stop_loss_source := stop_result.source
                 stop_loss_swing_price := stop_result.swing_price
                 stop_loss_distance_percent := stop_result.distance_percent
                 entry_slippage_percent := cfg.FIXED_SLIPPAGE_PERCENT * 100
                 entry_fee_usd := entry_fee }

/-! ### Backtester detectors (`paper_trading/backtest.py`) -/

/-- An OHLC candle row (`timestamp`, `open`, `high`, `low`, `close`); the
detectors never read `open` or `volume`, so only the read fields are kept. -/
structure Candle where
  ts : ℕ
  high : ℚ
  low : ℚ
  close : ℚ
deriving DecidableEq, Inhabited

/-- Python `max()` over a list (callers only apply it to nonempty lists). -/
def pyMax : List ℚ → ℚ
  | [] => 0
  | x :: xs => xs.foldl max x

/-- Python `min()` over a list (callers only apply it to nonempty lists). -/
def pyMin : List ℚ → ℚ
  | [] => 0
  | x :: xs => xs.foldl min x

/-- The dict returned by `Backtester.detect_liquidity_sweep_4h`. -/
structure SweepSig where
  sweep_type : SwingType
  bias : Bias
  price : ℚ
  ts : ℕ
deriving DecidableEq

/-- `sweep_threshold = Decimal('0.001')` in `detect_liquidity_sweep_4h`. -/
def SWEEP_THRESHOLD : ℚ := 1 / 1000

/-- The swing-high arm of `detect_liquidity_sweep_4h`: the Python loop
`for i in range(current_index - 1, current_index - lookback, -1)` walking the
index down (`i + 1` here is the Python `i`; `0` is the `i < 1` break), with
`continue` when `candles[i+1]` does not exist, returning the first 2-candle
swing high whose level (times 1.001) the current high reaches. -/
def scan_high_sweep (candles : List Candle) (current_high : ℚ) (current_ts : ℕ)
    (stop_idx : ℕ) : ℕ → Option SweepSig
  | 0 => none
  | i + 1 =>
    if i + 1 ≤ stop_idx then none
    else if i + 2 < candles.length then
      let c := candles.getD (i + 1) default
      let c_prev := candles.getD i default
      let c_next := candles.getD (i + 2) default
      if c.high > c_prev.high ∧ c.high > c_next.high then
        if current_high ≥ c.high * (1 + SWEEP_THRESHOLD) then
          some ⟨.HIGH, .BEARISH, c.high, current_ts⟩
        else scan_high_sweep candles current_high current_ts stop_idx i
      else scan_high_sweep candles current_high current_ts stop_idx i
    else scan_high_sweep candles current_high current_ts stop_idx i

/-- The swing-low arm of `detect_liquidity_sweep_4h`, symmetric to
`scan_high_sweep`. -/
def scan_low_sweep (candles : List Candle) (current_low : ℚ) (current_ts : ℕ)
    (stop_idx : ℕ) : ℕ → Option SweepSig
  | 0 => none
  | i + 1 =>
    if i + 1 ≤ stop_idx then none
    else if i + 2 < candles.length then
      let c := candles.getD (i + 1) default
      let c_prev := candles.getD i default
      let c_next := candles.getD (i + 2) default
      if c.low < c_prev.low ∧ c.low < c_next.low then
        if current_low ≤ c.low * (1 - SWEEP_THRESHOLD) then
          some ⟨.LOW, .BULLISH, c.low, current_ts⟩
        else scan_low_sweep candles current_low current_ts stop_idx i
      else scan_low_sweep candles current_low current_ts stop_idx i
    else scan_low_sweep candles current_low current_ts stop_idx i

/-- `Backtester.detect_liquidity_sweep_4h`: 2-candle swing levels in a
10-candle lookback; a sweep fires when the current high (low) reaches the
swing level widened by 0.1 percent; high sweeps are checked before low
sweeps. -/
def detect_liquidity_sweep_4h (candles : List Candle) (current_index : ℕ) :
    Option SweepSig :=
  if current_index < 3 then none
  else
    let lookback := min 10 current_index
    let current := candles.getD current_index default
    match scan_high_sweep candles current.high current.ts (current_index - lookback)
        (current_index - 1) with
    | some s => some s
    | none =>
      scan_low_sweep candles current.low current.ts (current_index - lookback)
        (current_index - 1)

/-- The dict returned by `Backtester.detect_choch` (the always-true
`detected` key is the `some` constructor). -/
structure ChochResult where
  typ : Bias
  price : ℚ
  structure_level : ℚ
  ts : ℕ
deriving DecidableEq

/-- `LOOKBACK_PERIOD = 5` in `detect_choch`. -/
def LOOKBACK_PERIOD : ℕ := 5

/-- `BREAK_THRESHOLD = Decimal('0.001')` in `detect_choch`. -/
def BREAK_THRESHOLD : ℚ := 1 / 1000

/-- `Backtester.detect_choch`: the close breaks the max high (BULLISH) or min
low (BEARISH) of the previous 5 candles by more than 0.1 percent. -/
def detect_choch (candles : List Candle) (current_index : ℕ) (bias : Bias) :
    Option ChochResult :=
  if current_index < LOOKBACK_PERIOD then none
  else
    let current := candles.getD current_index default
    let recent := (candles.drop (current_index - LOOKBACK_PERIOD)).take LOOKBACK_PERIOD
    match bias with
    | .BULLISH =>
      let max_recent_high := pyMax (recent.map Candle.high)
      let break_level := max_recent_high * (1 + BREAK_THRESHOLD)
      if current.close > break_level then
        some ⟨.BULLISH, current.close, max_recent_high, current.ts⟩
      else none
    | .BEARISH =>
      let min_recent_low := pyMin (recent.map Candle.low)
      let break_level := min_recent_low * (1 - BREAK_THRESHOLD)
      if current.close < break_level then
        some ⟨.BEARISH, current.close, min_recent_low, current.ts⟩
      else none

/-- The dict returned by `Backtester.detect_fvg`. -/
structure FvgZone where
  typ : Bias
  top : ℚ
  bottom : ℚ
  size : ℚ
  percent : ℚ
  ts : ℕ
  filled : Bool
deriving DecidableEq

/-- `MIN_GAP_PERCENT = Decimal('0.001')` in `detect_fvg`. -/
def MIN_GAP_PERCENT : ℚ := 1 / 1000

/-- `Backtester.detect_fvg`: 3-candle gap between candle 1 and candle 3, at
least 0.1 percent of the current close. -/
def detect_fvg (candles : List Candle) (current_index : ℕ) (bias : Bias) :
    Option FvgZone :=
  if current_index < 2 then none
  else
    let c1 := candles.getD (current_index - 2) default
    let c3 := candles.getD current_index default
    match bias with
    | .BULLISH =>
      if c3.low > c1.high then
        let gap_size := c3.low - c1.high
        let gap_percent := gap_size / c3.close
        if gap_percent ≥ MIN_GAP_PERCENT then
          some ⟨.BULLISH, c3.low, c1.high, gap_size, gap_percent, c3.ts, false⟩
        else none
      else none
    | .BEARISH =>
      if c3.high < c1.low then
        let gap_size := c1.low - c3.high
        let gap_percent := gap_size / c3.close
        if gap_percent ≥ MIN_GAP_PERCENT then
          some ⟨.BEARISH, c1.low, c3.high, gap_size, gap_percent, c3.ts, false⟩
        else none
      else none

/-- The dict returned by `Backtester.detect_fvg_fill`. -/
structure FvgFill where
  fill_price : ℚ
  ts : ℕ
deriving DecidableEq

/-- `Backtester.detect_fvg_fill`: the candle range re-enters the recorded
zone (low dips into a BULLISH gap, high rises into a BEARISH gap). -/
def detect_fvg_fill (candle : Candle) (fvg_zone : FvgZone) (bias : Bias) :
    Option FvgFill :=
  match bias with
  | .BULLISH =>
    if candle.low ≤ fvg_zone.top ∧ candle.low ≥ fvg_zone.bottom then
      some ⟨candle.low, candle.ts⟩
    else none
  | .BEARISH =>
    if candle.high ≥ fvg_zone.bottom ∧ candle.high ≤ fvg_zone.top then
      some ⟨candle.high, candle.ts⟩
    else none

/-- The dict returned by `Backtester.detect_bos`. -/
structure BosResult where
  typ : Bias
  price : ℚ
  structure_level : ℚ
deriving DecidableEq

/-- The swing-search loop of `Backtester.detect_bos`: walk the index down
from the candle before the current one and return the first 2-candle swing
level found (`break` on first match), skipping indices whose next candle
does not exist; `0` is the `i < 1` break. -/
def find_recent_swing (candles : List Candle) (swing_type : SwingType) (stop_idx : ℕ) :
    ℕ → Option ℚ
  | 0 => none
  | i + 1 =>
    if i + 1 ≤ stop_idx then none
    else if i + 2 < candles.length then
      let c := candles.getD (i + 1) default
      let c_prev := candles.getD i default
      let c_next := candles.getD (i + 2) default
      match swing_type with
      | .HIGH =>
        if c.high > c_prev.high ∧ c.high > c_next.high then some c.high
        else find_recent_swing candles swing_type stop_idx i
      | .LOW =>
        if c.low < c_prev.low ∧ c.low < c_next.low then some c.low
        else find_recent_swing candles swing_type stop_idx i
    else find_recent_swing candles swing_type stop_idx i

/-- `Backtester.detect_bos`: the close breaks the most recent 2-candle swing
high (BULLISH) or swing low (BEARISH) found in a 20-candle lookback. -/
def detect_bos (candles : List Candle) (current_index : ℕ) (bias : Bias) :
    Option BosResult :=
  if current_index < 3 then none
  else
    let current := candles.getD current_index default
    let lookback := min 20 (current_index - 2)
    let stop_idx := current_index - lookback
    match bias with
    | .BULLISH =>
      match find_recent_swing candles .HIGH stop_idx (current_index - 1) with
      | some swing_level =>
        if current.close > swing_level then some ⟨.BULLISH, current.close, swing_level⟩
        else none
      | none => none
    | .BEARISH =>
      match find_recent_swing candles .LOW stop_idx (current_index - 1) with
      | some swing_level =>
        if current.close < swing_level then some ⟨.BEARISH, current.close, swing_level⟩
        else none
      | none => none

/-- The `choch_result`/`fvg_result`/`fvg_fill_result` locals of
`detect_5m_confluence`. -/
structure ConflState where
  choch : Option ChochResult
  fvg : Option FvgZone
  fill : Option FvgFill
deriving DecidableEq

/-- The completed-confluence dict returned by `detect_5m_confluence`. -/
structure ConfluenceSig where
  bias : Bias
  bos_price : ℚ
  ts : ℕ
  choch : ChochResult
  fvg : FvgZone
  fill : FvgFill
  bos : BosResult
deriving DecidableEq

/-- The candle loop of `Backtester.detect_5m_confluence`: `fuel` counts the
iterations left (`for i in range(start_index, min(end_index + 1, len))`);
each candle is offered only to the detector of the current state, and each
`continue` moves to the next candle. -/
def confluence_loop (candles : List Candle) (bias : Bias) :
    ℕ → ℕ → ConflState → Option ConfluenceSig
  | 0, _, _ => none
  | fuel + 1, i, st =>
    match st.choch with
    | none =>
      confluence_loop candles bias fuel (i + 1)
        { st with choch := detect_choch candles i bias }
    | some ch =>
      match st.fvg with
      | none =>
        confluence_loop candles bias fuel (i + 1)
          { st with fvg := detect_fvg candles i bias }
      | some fvg =>
        match st.fill with
        | none =>
          confluence_loop candles bias fuel (i + 1)
            { st with fill := detect_fvg_fill (candles.getD i default) fvg bias }
        | some fill =>
          match detect_bos candles i bias with
          | some bos =>
            some { bias := bias
                   bos_price := (candles.getD i default).close
                   ts := (candles.getD i default).ts
                   choch := ch
                   fvg := fvg
                   fill := fill
                   bos := bos }
          | none => confluence_loop candles bias fuel (i + 1) st

/-- `Backtester.detect_5m_confluence`: run the state machine over the window
`[start_index, min(end_index, len - 1)]` from the empty state; `none` when
the window is exhausted before `COMPLETE`. -/
def detect_5m_confluence (candles : List Candle) (start_index end_index : ℕ)
    (bias : Bias) : Option ConfluenceSig :=
  confluence_loop candles bias (min (end_index + 1) candles.length - start_index)
    start_index ⟨none, none, none⟩

/-! ### Paper-trade rows and the position manager
(`paper_trading/database/queries.py`, `paper_trading/core/position_manager.py`) -/

/-- `status` column of `paper_trades`. -/
inductive TradeStatus
  | OPEN
  | CLOSED
deriving DecidableEq

/-- `close_reason` column values used by `close_paper_trade`. -/
inductive CloseReason
  | STOP_LOSS
  | TAKE_PROFIT
  | TRAILING_STOP
  | TIME_LIMIT
  | MANUAL
deriving DecidableEq

/-- `outcome` column values. -/
inductive Outcome
  | WIN
  | LOSS
  | BREAKEVEN
deriving DecidableEq

/-- The `paper_trades` columns read or written by the position manager and
`close_paper_trade`; times are abstract tick stamps. -/
structure PaperTradeRow where
  id : ℕ
  direction : Direction
  entry_price : ℚ
  stop_loss : ℚ
  take_profit : ℚ
  position_size_btc : ℚ
  position_size_usd : ℚ
  trailing_stop_activated : Bool
  trailing_stop_price : Option ℚ
  status : TradeStatus
  exit_price : Option ℚ
  exit_time : Option ℕ
  pnl_usd : Option ℚ
  outcome : Option Outcome
  close_reason : Option CloseReason
  exit_slippage_percent : ℚ
  exit_fee_usd : Option ℚ
  entry_time : ℕ
deriving DecidableEq

/-- `close_paper_trade` (`queries.py`): one unconditional `UPDATE` setting
the exit columns; `now` is `datetime.utcnow()`.  There is no check of the
current `status` or of a previously stored `close_reason`. -/
def close_paper_trade (row : PaperTradeRow) (exit_price pnl_usd : ℚ) (outcome : Outcome)
    (close_reason : CloseReason) (exit_slippage_percent exit_fee_usd : ℚ) (now : ℕ) :
    PaperTradeRow :=
  { row with
    status := .CLOSED
    exit_price := some exit_price
    exit_time := some now
    pnl_usd := some pnl_usd
    outcome := some outcome
    close_reason := some close_reason
    exit_slippage_percent := exit_slippage_percent
    exit_fee_usd := some exit_fee_usd }

/-- `activate_trailing_stop` (`queries.py`). -/
def activate_trailing_stop (row : PaperTradeRow) (trailing_price : ℚ) : PaperTradeRow :=
  { row with
    trailing_stop_activated := true
    trailing_stop_price := some trailing_price }

/-- `PositionManager.trailing_activation_percent = Decimal('0.80')`. -/
def TRAILING_ACTIVATION : ℚ := 80 / 100

/-- `PositionManager.max_trade_duration_hours = 72`. -/
def MAX_TRADE_DURATION_HOURS : ℚ := 72

/-- `PositionManager._is_stop_loss_hit`. -/
def is_stop_loss_hit (current_price stop_price : ℚ) (direction : Direction) : Bool :=
  match direction with
  | .LONG => decide (current_price ≤ stop_price)
  | .SHORT => decide (current_price ≥ stop_price)

/-- `PositionManager._is_take_profit_hit`. -/
def is_take_profit_hit (current_price tp_price : ℚ) (direction : Direction) : Bool :=
  match direction with
  | .LONG => decide (current_price ≥ tp_price)
  | .SHORT => decide (current_price ≤ tp_price)

/-- `PositionManager._should_activate_trailing_stop`: progress toward the
target must reach 80 percent and the price must have moved in the trade
direction.  (The Python `Decimal` quotient raises on `take_profit ==
entry_price`; every persisted trade has a nonzero target distance.) -/
def should_activate_trailing_stop (entry_price current_price take_profit : ℚ)
    (direction : Direction) : Bool :=
  let target_distance := absQ (take_profit - entry_price)
  let current_progress := absQ (current_price - entry_price)
  let progress_percent := current_progress / target_distance
  if progress_percent ≥ TRAILING_ACTIVATION then
    match direction with
    | .LONG => decide (current_price > entry_price)
    | .SHORT => decide (current_price < entry_price)
  else false

/-- The action `PositionManager._check_position` takes on one tick. -/
inductive PositionAction
  | closed (reason : CloseReason) (market_price : ℚ)
  | activateTrailing (price : ℚ)
  | nothing
deriving DecidableEq

/-- `PositionManager._check_position`: time limit first (close at the
current price with `TIME_LIMIT`), then the stop (the trailing stop price
replaces the original stop once activated, and the close reason becomes
`TRAILING_STOP`), then the take-profit, then trailing activation at the
entry price (break-even).  `hours_open` is `now - entry_time` in hours. -/
def check_position (row : PaperTradeRow) (current_price : ℚ) (hours_open : ℚ) :
    PositionAction :=
  if hours_open > MAX_TRADE_DURATION_HOURS then .closed .TIME_LIMIT current_price
  else
    let effective_stop :=
      if row.trailing_stop_activated then row.trailing_stop_price.getD 0 else row.stop_loss
    if is_stop_loss_hit current_price effective_stop row.direction then
      .closed (if row.trailing_stop_activated then .TRAILING_STOP else .STOP_LOSS)
        current_price
    else if is_take_profit_hit current_price row.take_profit row.direction then
      .closed .TAKE_PROFIT current_price
    else if !row.trailing_stop_activated &&
        should_activate_trailing_stop row.entry_price current_price row.take_profit
          row.direction then
      .activateTrailing row.entry_price
    else .nothing

/-- Attribute lookup on the `Config` object of `paper_trading/config.py`
(the `from config import config` module of `position_manager.py`, which is
under `src/`): the numeric slippage and fee attributes the class defines,
by name; a name the class does not define raises `AttributeError`, embedded
as `none`.  In particular the class defines `FIXED_SLIPPAGE_PERCENT`
(`Decimal('0.05')`) but no attribute named `SLIPPAGE_PERCENT`. -/
def Config_getattr (name : String) : Option ℚ :=
  if name = "FIXED_SLIPPAGE_PERCENT" then some (5 / 100)
  else if name = "TAKER_FEE_PERCENT" then some (60 / 100)
  else if name = "MAKER_FEE_PERCENT" then some (40 / 100)
  else none

/-- `PositionManager._close_position`: exit slippage and exit fee via
`self.trade_simulator` (the paper_trading copy of `core/trade_simulator.py`
behind it is not under `src/`; its slippage and fee formulas are modelled
from the spec as the ones embedded above, with the rates as parameters),
P&L net of the exit fee, outcome by the one-cent band — and then the
`close_paper_trade` call whose `exit_slippage_percent` argument reads
`config.SLIPPAGE_PERCENT` (`position_manager.py` line 321).  The `Config`
class of `paper_trading/config.py`, which is under `src/`, defines no such
attribute, so evaluating that argument raises `AttributeError` before
`close_paper_trade` runs; the surrounding `except` logs and swallows it and
no row is updated, so the result is `none` on every input.  (The time-limit
caller passes `entry_price=None` and the entry price is then read from the
row, so the row entry price is used in all cases.) -/
def close_position (row : PaperTradeRow) (market_price : ℚ) (reason : CloseReason)
    (cfg : BotConfig) (now : ℕ) : Option PaperTradeRow :=
  let exit_price_with_slippage := apply_slippage market_price row.direction false cfg
  let exit_fee := calculate_fee row.position_size_usd cfg
  let gross_pnl :=
    match row.direction with
    | .LONG => (exit_price_with_slippage - row.entry_price) * row.position_size_btc
    | .SHORT => (row.entry_price - exit_price_with_slippage) * row.position_size_btc
  let net_pnl := gross_pnl - exit_fee
  let outcome :=
    if net_pnl > 1 / 100 then Outcome.WIN
    else if net_pnl < -(1 / 100) then Outcome.LOSS
    else Outcome.BREAKEVEN
  match Config_getattr "SLIPPAGE_PERCENT" with
  | none => none
  | some slippage_percent =>
    some (close_paper_trade row exit_price_with_slippage net_pnl outcome reason
      (slippage_percent * 100) exit_fee now)

/-! ### Concrete example inputs used by witnesses and counterexamples -/

/-- A complete confluence signal row (id 1, BULLISH). -/
def exSignal : Signal := ⟨1, .BULLISH⟩

/-- Swing table with one active 5M LOW at 90 and nothing else. -/
def exDb : SwingDB := ⟨[⟨90, 0⟩], [], [], []⟩

/-- Swing table whose most recent 5M LOW (price 150) is above entry 100 while
an older active 5M LOW (price 80) is below it; one 4H LOW at 90. -/
def exDb3 : SwingDB := ⟨[⟨150, 10⟩, ⟨80, 5⟩], [], [⟨90, 0⟩], []⟩

/-- Swing table with no rows at all. -/
def exEmptyDb : SwingDB := ⟨[], [], [], []⟩

/-- Paper-trading config row with balance 10000. -/
def exPaperConfig : PaperConfig := ⟨10000⟩

/-- Slippage 0.05 percent (0.0005) and taker fee 0.6 percent (0.006). -/
def exBotConfig : BotConfig := ⟨1 / 2000, 6 / 1000⟩

/-- The row `execute_paper_trade exSignal 100 exDb (some exPaperConfig)
exBotConfig` persists: stop 89.82, 1:1 target 110.18, slipped entry 100.05,
risk 100, risk:reward 1013/1023. -/
def exTrade : TradeData :=
  ⟨1, .LONG, 2001 / 20, 4491 / 50, 5509 / 50, 5000 / 509, 500000 / 509, 100,
   1013 / 1023, .FIVE_M_SWING, 90, 509 / 50, 1 / 20, 3000 / 509⟩

/-- The `StopLossResult` for entry 100 over `exDb3`: the 4H fallback swing at
90, stop 89.82, 1:1 target 110.18. -/
def exStop4h : StopLossResult := ⟨4491 / 50, .FOUR_H_SWING, 90, 509 / 50, 5509 / 50⟩

/-- 4H candles where candle 1 is a 2-candle swing high at 105 and candle 3
pierces it (high 106) while closing above it (close 105.9). -/
def exCandles4h : List Candle :=
  [⟨0, 100, 90, 95⟩, ⟨1, 105, 95, 100⟩, ⟨2, 100, 90, 95⟩, ⟨3, 106, 99, 1059 / 10⟩]

/-- 5M candles driving the confluence machine through all four states for a
BULLISH bias: CHoCH at index 5, FVG at 7, FVG fill at 8, BOS at 9. -/
def exCandles5m : List Candle :=
  [⟨0, 100, 90, 95⟩, ⟨1, 99, 90, 95⟩, ⟨2, 100, 90, 95⟩, ⟨3, 99, 90, 95⟩,
   ⟨4, 100, 91, 95⟩, ⟨5, 203 / 2, 100, 101⟩, ⟨6, 201 / 2, 99, 100⟩,
   ⟨7, 209 / 2, 103, 104⟩, ⟨8, 105, 102, 104⟩, ⟨9, 106, 104, 211 / 2⟩]

/-- The completed confluence signal over `exCandles5m`. -/
def exConfluenceSig : ConfluenceSig :=
  ⟨.BULLISH, 211 / 2, 9, ⟨.BULLISH, 101, 100, 5⟩,
   ⟨.BULLISH, 103, 203 / 2, 3 / 2, 3 / 208, 7, false⟩, ⟨102, 8⟩,
   ⟨.BULLISH, 211 / 2, 203 / 2⟩⟩

/-- A `paper_trades` row already CLOSED at tick 5 with reason `STOP_LOSS`. -/
def exClosedRow : PaperTradeRow :=
  { id := 7, direction := .LONG, entry_price := 90000, stop_loss := 88000
    take_profit := 95000, position_size_btc := 1 / 100, position_size_usd := 900
    trailing_stop_activated := false, trailing_stop_price := none, status := .CLOSED
    exit_price := some 88000, exit_time := some 5, pnl_usd := some (-20)
    outcome := some .LOSS, close_reason := some .STOP_LOSS
    exit_slippage_percent := 1 / 20, exit_fee_usd := some (27 / 5), entry_time := 0 }

/-- An OPEN LONG position: entry 90000, stop 88000, target 95000. -/
def exOpenRow : PaperTradeRow :=
  { id := 8, direction := .LONG, entry_price := 90000, stop_loss := 88000
    take_profit := 95000, position_size_btc := 1 / 100, position_size_usd := 900
    trailing_stop_activated := false, trailing_stop_price := none, status := .OPEN
    exit_price := none, exit_time := none, pnl_usd := none, outcome := none
    close_reason := none, exit_slippage_percent := 0, exit_fee_usd := none
    entry_time := 0 }

/-- `exOpenRow` after trailing activation at break-even 90000. -/
def exTrailedRow : PaperTradeRow :=
  { id := 8, direction := .LONG, entry_price := 90000, stop_loss := 88000
    take_profit := 95000, position_size_btc := 1 / 100, position_size_usd := 900
    trailing_stop_activated := true, trailing_stop_price := some 90000, status := .OPEN
    exit_price := none, exit_time := none, pnl_usd := none, outcome := none
    close_reason := none, exit_slippage_percent := 0, exit_fee_usd := none
    entry_time := 0 }

end TradingBot

deriving instance DecidableEq for Except

namespace TradingBot

/-! ## Helper lemmas -/

theorem absQ_eq_abs (x : ℚ) : absQ x = |x| := by
  unfold absQ
  rcases lt_or_ge x 0 with h | h
  · rw [if_pos h, abs_of_neg h]
  · rw [if_neg (not_lt.mpr h), abs_of_nonneg h]

/-- Success characterization of `calculate_position_size`. -/
theorem calculate_position_size_ok_iff (b e s : ℚ) :
    (∃ p, calculate_position_size b e s = .ok p) ↔ (0 < b ∧ 0 < e ∧ 0 < s ∧ e ≠ s) := by
  unfold calculate_position_size
  dsimp only
  rw [absQ_eq_abs]
  split_ifs with h1 h2 h3 h4
  · constructor
    · rintro ⟨p, hp⟩; simp at hp
    · rintro ⟨hb, -, -, -⟩; linarith
  · constructor
    · rintro ⟨p, hp⟩; simp at hp
    · rintro ⟨-, he, -, -⟩; linarith
  · constructor
    · rintro ⟨p, hp⟩; simp at hp
    · rintro ⟨-, -, hs, -⟩; linarith
  · rw [abs_eq_zero, sub_eq_zero] at h4
    constructor
    · rintro ⟨p, hp⟩; simp at hp
    · rintro ⟨-, -, -, hne⟩; exact absurd h4 hne
  · push_neg at h1 h2 h3
    rw [abs_eq_zero, sub_eq_zero] at h4
    constructor
    · rintro ⟨p, -⟩; exact ⟨h1, h2, h3, h4⟩
    · intro _; exact ⟨_, rfl⟩

/-- Shape of a successful `calculate_position_size` result. -/
theorem calculate_position_size_ok_elim {b e s : ℚ} {p : PositionSize}
    (h : calculate_position_size b e s = .ok p) :
    0 < b ∧ 0 < e ∧ 0 < s ∧ e ≠ s ∧
      p = { btc := b * (1 / 100) / absQ (e - s)
            usd := b * (1 / 100) / absQ (e - s) * e
            risk_amount := b * (1 / 100)
            stop_distance := absQ (e - s)
            stop_distance_percent := absQ (e - s) / e * 100 } := by
  unfold calculate_position_size at h
  dsimp only at h
  split_ifs at h with h1 h2 h3 h4
  push_neg at h1 h2 h3
  have h4' := h4
  rw [absQ_eq_abs, abs_eq_zero, sub_eq_zero] at h4'
  simp only [Except.ok.injEq] at h
  exact ⟨h1, h2, h3, h4', h.symm⟩

/-- Failure characterization of one `try_swing_stop` arm. -/
theorem try_swing_stop_none_iff (entry_price : ℚ) (direction : Direction)
    (source : StopSource) (rows : List SwingRow) :
    try_swing_stop entry_price direction source rows = none ↔
      (rows.head? = none ∨ ∃ sw, rows.head? = some sw ∧
        is_stop_on_correct_side entry_price (calculate_stop_with_buffer sw.price direction)
          direction = false) := by
  unfold try_swing_stop
  cases hh : rows.head? with
  | none => simp
  | some sw =>
    simp only [hh, is_valid_stop, Bool.true_and, Option.some.injEq]
    split_ifs with hc
    · constructor
      · intro habs; exact absurd habs (by simp)
      · rintro (habs | ⟨sw2, hsw2, hfalse⟩)
        · exact absurd habs (by simp)
        · cases hsw2
          rw [hc] at hfalse
          exact absurd hfalse (by simp)
    · rw [Bool.not_eq_true] at hc
      simp only [eq_self_iff_true, true_iff]
      exact Or.inr ⟨sw, rfl, hc⟩

/-- Shape of a successful `try_swing_stop` arm. -/
theorem try_swing_stop_some_elim {entry_price : ℚ} {direction : Direction}
    {source : StopSource} {rows : List SwingRow} {r : StopLossResult}
    (h : try_swing_stop entry_price direction source rows = some r) :
    ∃ sw, rows.head? = some sw ∧
      is_stop_on_correct_side entry_price (calculate_stop_with_buffer sw.price direction)
        direction = true ∧
      r = { price := calculate_stop_with_buffer sw.price direction
            source := source
            swing_price := sw.price
            distance_percent := calculate_distance_percent entry_price
              (calculate_stop_with_buffer sw.price direction)
            minimum_take_profit := calculate_minimum_take_profit entry_price
              (calculate_stop_with_buffer sw.price direction) direction } := by
  unfold try_swing_stop at h
  rcases hh : rows.head? with - | sw
  · rw [hh] at h
    exact absurd h (by simp)
  · rw [hh] at h
    simp only [is_valid_stop, Bool.true_and] at h
    split_ifs at h with hc
    simp only [Option.some.injEq] at h
    exact ⟨sw, rfl, hc, h.symm⟩

/-- `calculate_stop_loss` with a matching direction is the two-arm priority
match over `try_swing_stop`. -/
theorem calculate_stop_loss_eq (entry_price : ℚ) (direction : Direction) (bias : Bias)
    (db : SwingDB) (hd : direction = expected_direction bias) :
    calculate_stop_loss entry_price direction bias db =
      match try_swing_stop entry_price direction .FIVE_M_SWING
          (get_swing_levels db .TF5M (swing_type_for direction) 1) with
      | some result => .ok (some result)
      | none =>
        match try_swing_stop entry_price direction .FOUR_H_SWING
            (get_swing_levels db .TF4H (swing_type_for direction) 1) with
        | some result => .ok (some result)
        | none => .ok none := by
  unfold calculate_stop_loss
  rw [if_neg (by simp [hd])]

/-- A stop result returned by `calculate_stop_loss` is on the correct side of
entry and carries the 1:1 minimum take-profit computed from its own price. -/
theorem calculate_stop_loss_ok_some_elim {entry_price : ℚ} {direction : Direction}
    {bias : Bias} {db : SwingDB} {r : StopLossResult}
    (h : calculate_stop_loss entry_price direction bias db = .ok (some r)) :
    is_stop_on_correct_side entry_price r.price direction = true ∧
    r.minimum_take_profit = calculate_minimum_take_profit entry_price r.price direction := by
  unfold calculate_stop_loss at h
  split_ifs at h with hne
  dsimp only at h
  rcases h5 : try_swing_stop entry_price direction .FIVE_M_SWING
      (get_swing_levels db .TF5M (swing_type_for direction) 1) with - | r5
  · rw [h5] at h
    dsimp only at h
    rcases h4 : try_swing_stop entry_price direction .FOUR_H_SWING
        (get_swing_levels db .TF4H (swing_type_for direction) 1) with - | r4
    · rw [h4] at h
      exact absurd h (by simp)
    · rw [h4] at h
      simp only [Except.ok.injEq, Option.some.injEq] at h
      subst h
      obtain ⟨sw, -, hside, hr⟩ := try_swing_stop_some_elim h4
      subst hr
      exact ⟨hside, rfl⟩
  · rw [h5] at h
    simp only [Except.ok.injEq, Option.some.injEq] at h
    subst h
    obtain ⟨sw, -, hside, hr⟩ := try_swing_stop_some_elim h5
    subst hr
    exact ⟨hside, rfl⟩

/-- What a successful `scan_high_sweep` implies: the result is a BEARISH
HIGH-sweep of a 2-candle swing high inside the scanned range whose widened
level the current high reaches. -/
theorem scan_high_sweep_some_elim {candles : List Candle} {ch : ℚ} {ts stop : ℕ} :
    ∀ (n : ℕ) {s : SweepSig}, scan_high_sweep candles ch ts stop n = some s →
      s.sweep_type = .HIGH ∧ s.bias = .BEARISH ∧ s.ts = ts ∧
      ch ≥ s.price * (1 + SWEEP_THRESHOLD) ∧
      ∃ j, stop < j ∧ 1 ≤ j ∧ j + 1 < candles.length ∧
        s.price = (candles.getD j default).high ∧
        (candles.getD j default).high > (candles.getD (j - 1) default).high ∧
        (candles.getD j default).high > (candles.getD (j + 1) default).high := by
  intro n
  induction n with
  | zero =>
    intro s h
    simp [scan_high_sweep] at h
  | succ i ih =>
    intro s h
    simp only [scan_high_sweep] at h
    split_ifs at h with h1 h2 h3 h4
    · simp only [Option.some.injEq] at h
      subst h
      refine ⟨rfl, rfl, rfl, h4, i + 1, by omega, by omega, h2, rfl, ?_, h3.2⟩
      simpa using h3.1
    · exact ih h
    · exact ih h
    · exact ih h

/-- What a successful `scan_low_sweep` implies, symmetric to
`scan_high_sweep_some_elim`. -/
theorem scan_low_sweep_some_elim {candles : List Candle} {cl : ℚ} {ts stop : ℕ} :
    ∀ (n : ℕ) {s : SweepSig}, scan_low_sweep candles cl ts stop n = some s →
      s.sweep_type = .LOW ∧ s.bias = .BULLISH ∧ s.ts = ts ∧
      cl ≤ s.price * (1 - SWEEP_THRESHOLD) ∧
      ∃ j, stop < j ∧ 1 ≤ j ∧ j + 1 < candles.length ∧
        s.price = (candles.getD j default).low ∧
        (candles.getD j default).low < (candles.getD (j - 1) default).low ∧
        (candles.getD j default).low < (candles.getD (j + 1) default).low := by
  intro n
  induction n with
  | zero =>
    intro s h
    simp [scan_low_sweep] at h
  | succ i ih =>
    intro s h
    simp only [scan_low_sweep] at h
    split_ifs at h with h1 h2 h3 h4
    · simp only [Option.some.injEq] at h
      subst h
      refine ⟨rfl, rfl, rfl, h4, i + 1, by omega, by omega, h2, rfl, ?_, h3.2⟩
      simpa using h3.1
    · exact ih h
    · exact ih h
    · exact ih h

/-- Phase 1 of the confluence loop: from the empty state, completion implies
a first CHoCH index, with no CHoCH before it, and the loop continuing from
the next candle in the CHoCH-found state. -/
theorem confluence_loop_choch_phase {candles : List Candle} {bias : Bias} :
    ∀ (fuel i : ℕ) {sig : ConfluenceSig},
      confluence_loop candles bias fuel i ⟨none, none, none⟩ = some sig →
      ∃ i1 ch, i ≤ i1 ∧ i1 < i + fuel ∧
        detect_choch candles i1 bias = some ch ∧
        (∀ j, i ≤ j → j < i1 → detect_choch candles j bias = none) ∧
        confluence_loop candles bias (i + fuel - (i1 + 1)) (i1 + 1)
          ⟨some ch, none, none⟩ = some sig := by
  intro fuel
  induction fuel with
  | zero =>
    intro i sig h
    simp [confluence_loop] at h
  | succ fuel ih =>
    intro i sig h
    simp only [confluence_loop] at h
    rcases hdet : detect_choch candles i bias with - | ch
    · rw [hdet] at h
      obtain ⟨i1, ch, ha, hb, hc, hd, hrest⟩ := ih (i + 1) h
      refine ⟨i1, ch, by omega, by omega, hc, ?_, ?_⟩
      · intro j hj1 hj2
        rcases Nat.eq_or_lt_of_le hj1 with rfl | hlt
        · exact hdet
        · exact hd j hlt hj2
      · have e : i + (fuel + 1) - (i1 + 1) = i + 1 + fuel - (i1 + 1) := by omega
        rw [e]
        exact hrest
    · rw [hdet] at h
      refine ⟨i, ch, le_refl i, by omega, hdet, by omega, ?_⟩
      have e : i + (fuel + 1) - (i + 1) = fuel := by omega
      rw [e]
      exact h

/-- Phase 2: from the CHoCH-found state, completion implies a first FVG index
strictly inside the remaining window, with no FVG before it. -/
theorem confluence_loop_fvg_phase {candles : List Candle} {bias : Bias}
    {ch : ChochResult} :
    ∀ (fuel i : ℕ) {sig : ConfluenceSig},
      confluence_loop candles bias fuel i ⟨some ch, none, none⟩ = some sig →
      ∃ i2 fvg, i ≤ i2 ∧ i2 < i + fuel ∧
        detect_fvg candles i2 bias = some fvg ∧
        (∀ j, i ≤ j → j < i2 → detect_fvg candles j bias = none) ∧
        confluence_loop candles bias (i + fuel - (i2 + 1)) (i2 + 1)
          ⟨some ch, some fvg, none⟩ = some sig := by
  intro fuel
  induction fuel with
  | zero =>
    intro i sig h
    simp [confluence_loop] at h
  | succ fuel ih =>
    intro i sig h
    simp only [confluence_loop] at h
    rcases hdet : detect_fvg candles i bias with - | fvg
    · rw [hdet] at h
      obtain ⟨i2, fvg, ha, hb, hc, hd, hrest⟩ := ih (i + 1) h
      refine ⟨i2, fvg, by omega, by omega, hc, ?_, ?_⟩
      · intro j hj1 hj2
        rcases Nat.eq_or_lt_of_le hj1 with rfl | hlt
        · exact hdet
        · exact hd j hlt hj2
      · have e : i + (fuel + 1) - (i2 + 1) = i + 1 + fuel - (i2 + 1) := by omega
        rw [e]
        exact hrest
    · rw [hdet] at h
      refine ⟨i, fvg, le_refl i, by omega, hdet, by omega, ?_⟩
      have e : i + (fuel + 1) - (i + 1) = fuel := by omega
      rw [e]
      exact h

/-- Phase 3: from the FVG-found state, completion implies a first fill index,
with no fill of the recorded zone before it. -/
theorem confluence_loop_fill_phase {candles : List Candle} {bias : Bias}
    {ch : ChochResult} {fvg : FvgZone} :
    ∀ (fuel i : ℕ) {sig : ConfluenceSig},
      confluence_loop candles bias fuel i ⟨some ch, some fvg, none⟩ = some sig →
      ∃ i3 fill, i ≤ i3 ∧ i3 < i + fuel ∧
        detect_fvg_fill (candles.getD i3 default) fvg bias = some fill ∧
        (∀ j, i ≤ j → j < i3 →
          detect_fvg_fill (candles.getD j default) fvg bias = none) ∧
        confluence_loop candles bias (i + fuel - (i3 + 1)) (i3 + 1)
          ⟨some ch, some fvg, some fill⟩ = some sig := by
  intro fuel
  induction fuel with
  | zero =>
    intro i sig h
    simp [confluence_loop] at h
  | succ fuel ih =>
    intro i sig h
    simp only [confluence_loop] at h
    rcases hdet : detect_fvg_fill (candles.getD i default) fvg bias with - | fill
    · rw [hdet] at h
      obtain ⟨i3, fill, ha, hb, hc, hd, hrest⟩ := ih (i + 1) h
      refine ⟨i3, fill, by omega, by omega, hc, ?_, ?_⟩
      · intro j hj1 hj2
        rcases Nat.eq_or_lt_of_le hj1 with rfl | hlt
        · exact hdet
        · exact hd j hlt hj2
      · have e : i + (fuel + 1) - (i3 + 1) = i + 1 + fuel - (i3 + 1) := by omega
        rw [e]
        exact hrest
    · rw [hdet] at h
      refine ⟨i, fill, le_refl i, by omega, hdet, by omega, ?_⟩
      have e : i + (fuel + 1) - (i + 1) = fuel := by omega
      rw [e]
      exact h

/-- Phase 4: from the fill-found state, completion implies a first BOS index,
with no BOS before it, and the returned signal is built from that candle. -/
theorem confluence_loop_bos_phase {candles : List Candle} {bias : Bias}
    {ch : ChochResult} {fvg : FvgZone} {fill : FvgFill} :
    ∀ (fuel i : ℕ) {sig : ConfluenceSig},
      confluence_loop candles bias fuel i ⟨some ch, some fvg, some fill⟩ = some sig →
      ∃ i4 bos, i ≤ i4 ∧ i4 < i + fuel ∧
        detect_bos candles i4 bias = some bos ∧
        (∀ j, i ≤ j → j < i4 → detect_bos candles j bias = none) ∧
        sig = ⟨bias, (candles.getD i4 default).close, (candles.getD i4 default).ts,
               ch, fvg, fill, bos⟩ := by
  intro fuel
  induction fuel with
  | zero =>
    intro i sig h
    simp [confluence_loop] at h
  | succ fuel ih =>
    intro i sig h
    simp only [confluence_loop] at h
    rcases hdet : detect_bos candles i bias with - | bos
    · rw [hdet] at h
      obtain ⟨i4, bos, ha, hb, hc, hd, hsig⟩ := ih (i + 1) h
      refine ⟨i4, bos, by omega, by omega, hc, ?_, hsig⟩
      intro j hj1 hj2
      rcases Nat.eq_or_lt_of_le hj1 with rfl | hlt
      · exact hdet
      · exact hd j hlt hj2
    · rw [hdet] at h
      simp only [Option.some.injEq] at h
      exact ⟨i, bos, le_refl i, by omega, hdet, by omega, h.symm⟩

/-- Evaluation of the example trade: the signal over `exDb` is accepted and
persists exactly `exTrade`. -/
theorem exTrade_run :
    execute_paper_trade exSignal 100 exDb (some exPaperConfig) exBotConfig = some exTrade := by
  norm_num [execute_paper_trade, calculate_stop_loss, try_swing_stop, get_swing_levels,
    is_valid_stop, calculate_distance_percent, is_stop_on_correct_side, expected_direction,
    swing_type_for, calculate_stop_with_buffer, calculate_minimum_take_profit,
    calculate_position_size, apply_slippage, calculate_fee, absQ,
    BUFFER_BELOW_LOW, MIN_RR, exSignal, exDb, exPaperConfig, exBotConfig, exTrade]

/-! ## C1 -/

/-- C1: the risk embedded in every position size is exactly one percent of
the balance: `calculate_position_size` succeeds on positive inputs with
`entry ≠ stop` and returns `risk_amount = balance * 0.01` exactly, and every
trade row persisted by `execute_paper_trade` carries exactly
`account_balance * 0.01` as `risk_amount_usd`. -/
theorem c1_risk_fraction :
    (∀ b e s : ℚ, 0 < b → 0 < e → 0 < s → e ≠ s →
      ∃ p, calculate_position_size b e s = .ok p ∧ p.risk_amount = b * (1 / 100)) ∧
    (∀ (signal : Signal) (current_price : ℚ) (db : SwingDB) (pc : PaperConfig)
        (cfg : BotConfig) (td : TradeData),
      execute_paper_trade signal current_price db (some pc) cfg = some td →
      td.risk_amount_usd = pc.account_balance * (1 / 100)) := by
  constructor
  · intro b e s hb he hs hne
    obtain ⟨p, hp⟩ := (calculate_position_size_ok_iff b e s).mpr ⟨hb, he, hs, hne⟩
    refine ⟨p, hp, ?_⟩
    rw [(calculate_position_size_ok_elim hp).2.2.2.2]
  · intro sig price db pc cfg td h
    unfold execute_paper_trade at h
    dsimp only at h
    rcases hsl : calculate_stop_loss price (expected_direction sig.bias) sig.bias db with e | osr
    · rw [hsl] at h
      exact absurd h (by simp)
    · rw [hsl] at h
      rcases osr with - | sr
      · exact absurd h (by simp)
      · dsimp only at h
        rcases hps : calculate_position_size pc.account_balance price sr.price with e2 | position
        · rw [hps] at h
          exact absurd h (by simp)
        · rw [hps] at h
          dsimp only at h
          split_ifs at h with hz
          simp only [Option.some.injEq] at h
          subst h
          dsimp only
          rw [(calculate_position_size_ok_elim hps).2.2.2.2]

/-- C1 witness: concrete run of both conjuncts. -/
theorem c1_risk_fraction_witness :
    (∃ p, calculate_position_size 10000 100 90 = .ok p ∧ p.risk_amount = 10000 * (1 / 100)) ∧
    exTrade.risk_amount_usd = exPaperConfig.account_balance * (1 / 100) := by
  constructor
  · exact c1_risk_fraction.1 10000 100 90 (by norm_num) (by norm_num) (by norm_num)
      (by norm_num)
  · exact c1_risk_fraction.2 exSignal 100 exDb exPaperConfig exBotConfig exTrade exTrade_run

/-! ## C2 -/

/-- C2 (counterexample): a confirmed BULLISH signal over `exDb` whose
computed risk:reward ratio is 1013/1023, below 2.0, is not rejected:
`execute_paper_trade` persists a trade row for it. -/
theorem c2_rr_floor_counterexample :
    (execute_paper_trade exSignal 100 exDb (some exPaperConfig) exBotConfig).isSome = true ∧
    (execute_paper_trade exSignal 100 exDb (some exPaperConfig) exBotConfig).map
      TradeData.risk_reward = some (1013 / 1023) ∧
    (1013 : ℚ) / 1023 < 2 := by
  refine ⟨?_, ?_, by norm_num⟩
  · rw [exTrade_run]; rfl
  · rw [exTrade_run]
    simp only [Option.map]
    norm_num [exTrade]

/-- C2 (amended): no 2:1 floor is enforced at trade-acceptance time.  The
take-profit of every persisted trade is the 1:1 minimum, so with any
nonnegative slippage rate the recorded risk:reward ratio (the
`risk_reward_ratio` column, measured from the slipped entry) is at most 1.0,
hence below 2.0; the 2:1 validator on the `PaperTrade` pydantic model is not
on the raw-SQL insert path. -/
theorem c2_rr_floor_not_enforced :
    ∀ (signal : Signal) (current_price : ℚ) (db : SwingDB) (pc : PaperConfig)
      (cfg : BotConfig) (td : TradeData),
      execute_paper_trade signal current_price db (some pc) cfg = some td →
      0 ≤ cfg.FIXED_SLIPPAGE_PERCENT →
      td.risk_reward ≤ 1 ∧ td.risk_reward < 2 := by
  intro sig price db pc cfg td h hs
  unfold execute_paper_trade at h
  dsimp only at h
  rcases hsl : calculate_stop_loss price (expected_direction sig.bias) sig.bias db with e | osr
  · rw [hsl] at h
    exact absurd h (by simp)
  · rw [hsl] at h
    rcases osr with - | sr
    · exact absurd h (by simp)
    · dsimp only at h
      rcases hps : calculate_position_size pc.account_balance price sr.price with e2 | position
      · rw [hps] at h
        exact absurd h (by simp)
      · rw [hps] at h
        dsimp only at h
        split_ifs at h with hz
        simp only [Option.some.injEq] at h
        subst h
        obtain ⟨hside, hmtp⟩ := calculate_stop_loss_ok_some_elim hsl
        obtain ⟨-, hprice, hstop, -, -⟩ := calculate_position_size_ok_elim hps
        have hE : 0 ≤ price * cfg.FIXED_SLIPPAGE_PERCENT :=
          mul_nonneg (le_of_lt hprice) hs
        dsimp only
        cases hbias : sig.bias
        · -- BULLISH, direction LONG
          rw [hbias] at hside hmtp
          dsimp only [expected_direction] at hside hmtp ⊢
          simp only [is_stop_on_correct_side, decide_eq_true_eq] at hside
          have hD : 0 < price - sr.price := by linarith
          simp only [calculate_minimum_take_profit, MIN_RR, mul_one] at hmtp
          rw [absQ_eq_abs, abs_of_pos hD] at hmtp
          simp only [apply_slippage, eq_self_iff_true, if_true]
          rw [absQ_eq_abs, absQ_eq_abs, hmtp]
          have e1 : price + (price - sr.price) - price * (1 + cfg.FIXED_SLIPPAGE_PERCENT) =
              (price - sr.price) - price * cfg.FIXED_SLIPPAGE_PERCENT := by ring
          have e2 : price * (1 + cfg.FIXED_SLIPPAGE_PERCENT) - sr.price =
              (price - sr.price) + price * cfg.FIXED_SLIPPAGE_PERCENT := by ring
          rw [e1, e2, abs_of_pos (show (0 : ℚ) <
            price - sr.price + price * cfg.FIXED_SLIPPAGE_PERCENT by linarith)]
          have hnum : |price - sr.price - price * cfg.FIXED_SLIPPAGE_PERCENT| ≤
              price - sr.price + price * cfg.FIXED_SLIPPAGE_PERCENT :=
            abs_le.mpr ⟨by linarith, by linarith⟩
          have hle : |price - sr.price - price * cfg.FIXED_SLIPPAGE_PERCENT| /
              (price - sr.price + price * cfg.FIXED_SLIPPAGE_PERCENT) ≤ 1 :=
            (div_le_one (by linarith)).mpr hnum
          exact ⟨hle, by linarith⟩
        · -- BEARISH, direction SHORT
          rw [hbias] at hside hmtp
          dsimp only [expected_direction] at hside hmtp ⊢
          simp only [is_stop_on_correct_side, decide_eq_true_eq] at hside
          have hD : 0 < sr.price - price := by linarith
          simp only [calculate_minimum_take_profit, MIN_RR, mul_one] at hmtp
          rw [absQ_eq_abs, abs_of_neg (by linarith : price - sr.price < 0)] at hmtp
          simp only [apply_slippage, eq_self_iff_true, if_true]
          rw [absQ_eq_abs, absQ_eq_abs, hmtp]
          have e1 : price - -(price - sr.price) - price * (1 - cfg.FIXED_SLIPPAGE_PERCENT) =
              price * cfg.FIXED_SLIPPAGE_PERCENT - (sr.price - price) := by ring
          have e2 : price * (1 - cfg.FIXED_SLIPPAGE_PERCENT) - sr.price =
              -((sr.price - price) + price * cfg.FIXED_SLIPPAGE_PERCENT) := by ring
          rw [e1, e2, abs_neg, abs_of_pos (show (0 : ℚ) <
            sr.price - price + price * cfg.FIXED_SLIPPAGE_PERCENT by linarith)]
          have hnum : |price * cfg.FIXED_SLIPPAGE_PERCENT - (sr.price - price)| ≤
              sr.price - price + price * cfg.FIXED_SLIPPAGE_PERCENT :=
            abs_le.mpr ⟨by linarith, by linarith⟩
          have hle : |price * cfg.FIXED_SLIPPAGE_PERCENT - (sr.price - price)| /
              (sr.price - price + price * cfg.FIXED_SLIPPAGE_PERCENT) ≤ 1 :=
            (div_le_one (by linarith)).mpr hnum
          exact ⟨hle, by linarith⟩

/-- C2 witness: the amended bound at the concrete accepted trade. -/
theorem c2_rr_floor_not_enforced_witness :
    execute_paper_trade exSignal 100 exDb (some exPaperConfig) exBotConfig = some exTrade ∧
    exTrade.risk_reward ≤ 1 ∧ exTrade.risk_reward < 2 :=
  ⟨exTrade_run,
   c2_rr_floor_not_enforced exSignal 100 exDb exPaperConfig exBotConfig exTrade
     exTrade_run (by norm_num [exBotConfig])⟩

/-! ## C3 -/

/-- C3 (counterexample): over `exDb3` the 4H fallback swing is used for a
LONG at entry 100 even though an older active 5M swing (price 80) yields a
correctly-sided stop; only the most recent 5M swing (price 150, wrong side)
is ever consulted, refuting the claim that the coarse swing is used only when
no 5M swing yields a correctly-sided stop. -/
theorem c3_stop_priority_counterexample :
    calculate_stop_loss 100 .LONG .BULLISH exDb3 = .ok (some exStop4h) ∧
    exStop4h.source = .FOUR_H_SWING ∧
    (⟨80, 5⟩ : SwingRow) ∈ exDb3.fiveM_low ∧
    is_stop_on_correct_side 100 (calculate_stop_with_buffer 80 .LONG) .LONG = true := by
  refine ⟨?_, rfl, by simp [exDb3], ?_⟩
  · norm_num [calculate_stop_loss, try_swing_stop, get_swing_levels, is_valid_stop,
      calculate_distance_percent, is_stop_on_correct_side, expected_direction,
      swing_type_for, calculate_stop_with_buffer, calculate_minimum_take_profit, absQ,
      BUFFER_BELOW_LOW, MIN_RR, exDb3, exStop4h]
  · norm_num [is_stop_on_correct_side, calculate_stop_with_buffer, BUFFER_BELOW_LOW]

/-- C3 (amended): `calculate_stop_loss` always attempts the most recent
active fine (5M) swing first (a 5M stop that passes the side check wins
outright); the coarse (4H) swing is used only when that single consulted 5M
swing is absent or yields a wrongly-sided stop (the query is `limit=1`, so
older fine swings are never consulted); when neither consulted swing yields a
correctly-sided stop the result is `none`, and `execute_paper_trade` then
returns without creating any trade row. -/
theorem c3_stop_priority :
    (∀ (entry_price : ℚ) (bias : Bias) (db : SwingDB) (r : StopLossResult),
      try_swing_stop entry_price (expected_direction bias) .FIVE_M_SWING
          (get_swing_levels db .TF5M (swing_type_for (expected_direction bias)) 1) = some r →
      calculate_stop_loss entry_price (expected_direction bias) bias db = .ok (some r)) ∧
    (∀ (entry_price : ℚ) (bias : Bias) (db : SwingDB) (r : StopLossResult),
      calculate_stop_loss entry_price (expected_direction bias) bias db = .ok (some r) →
      r.source = .FOUR_H_SWING →
      try_swing_stop entry_price (expected_direction bias) .FIVE_M_SWING
        (get_swing_levels db .TF5M (swing_type_for (expected_direction bias)) 1) = none) ∧
    (∀ (entry_price : ℚ) (bias : Bias) (db : SwingDB),
      calculate_stop_loss entry_price (expected_direction bias) bias db = .ok none ↔
        (try_swing_stop entry_price (expected_direction bias) .FIVE_M_SWING
            (get_swing_levels db .TF5M (swing_type_for (expected_direction bias)) 1) = none ∧
          try_swing_stop entry_price (expected_direction bias) .FOUR_H_SWING
            (get_swing_levels db .TF4H (swing_type_for (expected_direction bias)) 1) = none)) ∧
    (∀ (signal : Signal) (current_price : ℚ) (db : SwingDB)
        (paper_config : Option PaperConfig) (cfg : BotConfig),
      calculate_stop_loss current_price (expected_direction signal.bias) signal.bias db =
        .ok none →
      execute_paper_trade signal current_price db paper_config cfg = none) := by
  refine ⟨?_, ?_, ?_, ?_⟩
  · intro entry_price bias db r h5
    rw [calculate_stop_loss_eq entry_price (expected_direction bias) bias db rfl, h5]
  · intro entry_price bias db r h hsrc
    rcases h5 : try_swing_stop entry_price (expected_direction bias) .FIVE_M_SWING
        (get_swing_levels db .TF5M (swing_type_for (expected_direction bias)) 1) with - | r5
    · rfl
    · exfalso
      rw [calculate_stop_loss_eq entry_price (expected_direction bias) bias db rfl, h5] at h
      simp only [Except.ok.injEq, Option.some.injEq] at h
      subst h
      obtain ⟨sw, -, -, hr⟩ := try_swing_stop_some_elim h5
      rw [hr] at hsrc
      exact absurd hsrc (by simp)
  · intro entry_price bias db
    rw [calculate_stop_loss_eq entry_price (expected_direction bias) bias db rfl]
    rcases h5 : try_swing_stop entry_price (expected_direction bias) .FIVE_M_SWING
        (get_swing_levels db .TF5M (swing_type_for (expected_direction bias)) 1) with - | r5
    · rcases h4 : try_swing_stop entry_price (expected_direction bias) .FOUR_H_SWING
          (get_swing_levels db .TF4H (swing_type_for (expected_direction bias)) 1) with - | r4
      · simp
      · simp
    · simp
  · intro sig price db paper_config cfg hnone
    unfold execute_paper_trade
    dsimp only
    rw [hnone]

/-- C3 witness: concrete instances of the amended priority facts. -/
theorem c3_stop_priority_witness :
    (try_swing_stop 100 (expected_direction .BULLISH) .FIVE_M_SWING
        (get_swing_levels exDb3 .TF5M (swing_type_for (expected_direction .BULLISH)) 1) =
      none) ∧
    (calculate_stop_loss 100 (expected_direction .BULLISH) .BULLISH exEmptyDb = .ok none) ∧
    execute_paper_trade ⟨2, .BULLISH⟩ 100 exEmptyDb (some exPaperConfig) exBotConfig =
      none := by
  have hrun : calculate_stop_loss 100 (expected_direction .BULLISH) .BULLISH exDb3 =
      .ok (some exStop4h) := by
    norm_num [calculate_stop_loss, try_swing_stop, get_swing_levels, is_valid_stop,
      calculate_distance_percent, is_stop_on_correct_side, expected_direction,
      swing_type_for, calculate_stop_with_buffer, calculate_minimum_take_profit, absQ,
      BUFFER_BELOW_LOW, MIN_RR, exDb3, exStop4h]
  have hempty : calculate_stop_loss 100 (expected_direction .BULLISH) .BULLISH exEmptyDb =
      .ok none := by
    norm_num [calculate_stop_loss, try_swing_stop, get_swing_levels, expected_direction,
      swing_type_for, exEmptyDb]
  refine ⟨?_, hempty, ?_⟩
  · exact c3_stop_priority.2.1 100 .BULLISH exDb3 exStop4h hrun rfl
  · exact c3_stop_priority.2.2.2 ⟨2, .BULLISH⟩ 100 exEmptyDb (some exPaperConfig)
      exBotConfig hempty

/-! ## C4 -/

/-- C4: the confluence state machine completes only in strict order: a
returned `COMPLETE` signal exhibits indices `i1 < i2 < i3 < i4` inside the
window at which CHoCH, FVG, FVG-fill and BOS respectively first fired, each
detector having been offered exactly the candles between the previous firing
and its own (all of which returned none), and the signal is built from the
BOS candle; if the window is exhausted before BOS the result is `none`, which
is the only other outcome. -/
theorem c4_confluence_strict_order :
    ∀ (candles : List Candle) (start_index end_index : ℕ) (bias : Bias)
      (sig : ConfluenceSig),
      detect_5m_confluence candles start_index end_index bias = some sig →
      ∃ i1 i2 i3 i4 ch fvg fill bos,
        start_index ≤ i1 ∧ i1 < i2 ∧ i2 < i3 ∧ i3 < i4 ∧
        i4 ≤ end_index ∧ i4 < candles.length ∧
        detect_choch candles i1 bias = some ch ∧
        (∀ j, start_index ≤ j → j < i1 → detect_choch candles j bias = none) ∧
        detect_fvg candles i2 bias = some fvg ∧
        (∀ j, i1 < j → j < i2 → detect_fvg candles j bias = none) ∧
        detect_fvg_fill (candles.getD i3 default) fvg bias = some fill ∧
        (∀ j, i2 < j → j < i3 →
          detect_fvg_fill (candles.getD j default) fvg bias = none) ∧
        detect_bos candles i4 bias = some bos ∧
        (∀ j, i3 < j → j < i4 → detect_bos candles j bias = none) ∧
        sig = ⟨bias, (candles.getD i4 default).close, (candles.getD i4 default).ts,
               ch, fvg, fill, bos⟩ := by
  intro candles s e bias sig h
  unfold detect_5m_confluence at h
  obtain ⟨i1, ch, h1a, h1b, h1c, h1d, h1rest⟩ := confluence_loop_choch_phase _ _ h
  obtain ⟨i2, fvg, h2a, h2b, h2c, h2d, h2rest⟩ := confluence_loop_fvg_phase _ _ h1rest
  obtain ⟨i3, fill, h3a, h3b, h3c, h3d, h3rest⟩ := confluence_loop_fill_phase _ _ h2rest
  obtain ⟨i4, bos, h4a, h4b, h4c, h4d, h4sig⟩ := confluence_loop_bos_phase _ _ h3rest
  refine ⟨i1, i2, i3, i4, ch, fvg, fill, bos, h1a, by omega, by omega, by omega,
    by omega, by omega, h1c, h1d, h2c, ?_, h3c, ?_, h4c, ?_, h4sig⟩
  · intro j hj1 hj2
    exact h2d j hj1 hj2
  · intro j hj1 hj2
    exact h3d j hj1 hj2
  · intro j hj1 hj2
    exact h4d j hj1 hj2

/-- C4 witness: a concrete BULLISH run completing with CHoCH at 5, FVG at 7,
fill at 8 and BOS at 9. -/
theorem c4_confluence_strict_order_witness :
    detect_5m_confluence exCandles5m 0 9 .BULLISH = some exConfluenceSig ∧
    (∃ i1 i2 i3 i4 ch fvg fill bos,
      0 ≤ i1 ∧ i1 < i2 ∧ i2 < i3 ∧ i3 < i4 ∧ i4 ≤ 9 ∧ i4 < exCandles5m.length ∧
      detect_choch exCandles5m i1 .BULLISH = some ch ∧
      (∀ j, 0 ≤ j → j < i1 → detect_choch exCandles5m j .BULLISH = none) ∧
      detect_fvg exCandles5m i2 .BULLISH = some fvg ∧
      (∀ j, i1 < j → j < i2 → detect_fvg exCandles5m j .BULLISH = none) ∧
      detect_fvg_fill (exCandles5m.getD i3 default) fvg .BULLISH = some fill ∧
      (∀ j, i2 < j → j < i3 →
        detect_fvg_fill (exCandles5m.getD j default) fvg .BULLISH = none) ∧
      detect_bos exCandles5m i4 .BULLISH = some bos ∧
      (∀ j, i3 < j → j < i4 → detect_bos exCandles5m j .BULLISH = none) ∧
      exConfluenceSig = ⟨.BULLISH, (exCandles5m.getD i4 default).close,
        (exCandles5m.getD i4 default).ts, ch, fvg, fill, bos⟩) := by
  have h : detect_5m_confluence exCandles5m 0 9 .BULLISH = some exConfluenceSig := by
    norm_num [detect_5m_confluence, confluence_loop, detect_choch, detect_fvg,
      detect_fvg_fill, detect_bos, find_recent_swing, pyMax, pyMin, LOOKBACK_PERIOD,
      BREAK_THRESHOLD, MIN_GAP_PERCENT, max_def, min_def, exCandles5m, exConfluenceSig]
  exact ⟨h, c4_confluence_strict_order exCandles5m 0 9 .BULLISH exConfluenceSig h⟩

/-! ## C5 -/

/-- C5 (counterexample): over `exCandles4h` the current candle (index 3)
pierces the swing-high level 105 and also closes above it (close 105.9), yet
`detect_liquidity_sweep_4h` fires a BEARISH sweep — the detector never reads
the close, refuting the pierce-and-close-back-inside geometry. -/
theorem c5_sweep_close_counterexample :
    detect_liquidity_sweep_4h exCandles4h 3 = some ⟨.HIGH, .BEARISH, 105, 3⟩ ∧
    ((exCandles4h.getD 3 default).close > 105 ∧ (exCandles4h.getD 3 default).high > 105) := by
  constructor
  · norm_num [detect_liquidity_sweep_4h, scan_high_sweep, scan_low_sweep, SWEEP_THRESHOLD,
      exCandles4h]
  · constructor <;> norm_num [exCandles4h]

/-- C5 (amended): the backtester sweep detector fires on a one-sided wick
condition only: a BEARISH sweep of a 2-candle swing high at price `p` fires
exactly when the current high reaches `p` widened by the 0.1 percent
threshold (`high ≥ p * 1.001`), and a BULLISH sweep of a swing low when
`low ≤ p * 0.999`; the candle close is not consulted, so a candle that
pierces a level and closes beyond it still fires. -/
theorem c5_sweep_geometry :
    ∀ (candles : List Candle) (current_index : ℕ) (s : SweepSig),
      detect_liquidity_sweep_4h candles current_index = some s →
      3 ≤ current_index ∧ s.ts = (candles.getD current_index default).ts ∧
      ((s.sweep_type = .HIGH ∧ s.bias = .BEARISH ∧
          (candles.getD current_index default).high ≥ s.price * (1 + SWEEP_THRESHOLD) ∧
          ∃ j, current_index - min 10 current_index < j ∧ 1 ≤ j ∧
            j + 1 < candles.length ∧
            s.price = (candles.getD j default).high ∧
            (candles.getD j default).high > (candles.getD (j - 1) default).high ∧
            (candles.getD j default).high > (candles.getD (j + 1) default).high) ∨
        (s.sweep_type = .LOW ∧ s.bias = .BULLISH ∧
          (candles.getD current_index default).low ≤ s.price * (1 - SWEEP_THRESHOLD) ∧
          ∃ j, current_index - min 10 current_index < j ∧ 1 ≤ j ∧
            j + 1 < candles.length ∧
            s.price = (candles.getD j default).low ∧
            (candles.getD j default).low < (candles.getD (j - 1) default).low ∧
            (candles.getD j default).low < (candles.getD (j + 1) default).low)) := by
  intro candles current_index s h
  unfold detect_liquidity_sweep_4h at h
  split_ifs at h with hidx
  push_neg at hidx
  dsimp only at h
  refine ⟨hidx, ?_⟩
  rcases hh : scan_high_sweep candles (candles.getD current_index default).high
      (candles.getD current_index default).ts
      (current_index - min 10 current_index) (current_index - 1) with - | s0
  · rw [hh] at h
    dsimp only at h
    obtain ⟨hty, hbias, hts, hle, j, hj1, hj2, hj3, hp, hs1, hs2⟩ :=
      scan_low_sweep_some_elim (current_index - 1) h
    exact ⟨hts, Or.inr ⟨hty, hbias, hle, j, hj1, hj2, hj3, hp, hs1, hs2⟩⟩
  · rw [hh] at h
    dsimp only at h
    simp only [Option.some.injEq] at h
    subst h
    obtain ⟨hty, hbias, hts, hle, j, hj1, hj2, hj3, hp, hs1, hs2⟩ :=
      scan_high_sweep_some_elim (current_index - 1) hh
    exact ⟨hts, Or.inl ⟨hty, hbias, hle, j, hj1, hj2, hj3, hp, hs1, hs2⟩⟩

/-- C5 witness: the amended geometry at the concrete sweep of `exCandles4h`. -/
theorem c5_sweep_geometry_witness :
    3 ≤ 3 ∧ (SweepSig.mk .HIGH .BEARISH 105 3).ts = (exCandles4h.getD 3 default).ts ∧
    (((SweepSig.mk .HIGH .BEARISH 105 3).sweep_type = .HIGH ∧
        (SweepSig.mk .HIGH .BEARISH 105 3).bias = .BEARISH ∧
        (exCandles4h.getD 3 default).high ≥
          (SweepSig.mk .HIGH .BEARISH 105 3).price * (1 + SWEEP_THRESHOLD) ∧
        ∃ j, 3 - min 10 3 < j ∧ 1 ≤ j ∧ j + 1 < exCandles4h.length ∧
          (SweepSig.mk .HIGH .BEARISH 105 3).price = (exCandles4h.getD j default).high ∧
          (exCandles4h.getD j default).high > (exCandles4h.getD (j - 1) default).high ∧
          (exCandles4h.getD j default).high > (exCandles4h.getD (j + 1) default).high) ∨
      ((SweepSig.mk .HIGH .BEARISH 105 3).sweep_type = .LOW ∧
        (SweepSig.mk .HIGH .BEARISH 105 3).bias = .BULLISH ∧
        (exCandles4h.getD 3 default).low ≤
          (SweepSig.mk .HIGH .BEARISH 105 3).price * (1 - SWEEP_THRESHOLD) ∧
        ∃ j, 3 - min 10 3 < j ∧ 1 ≤ j ∧ j + 1 < exCandles4h.length ∧
          (SweepSig.mk .HIGH .BEARISH 105 3).price = (exCandles4h.getD j default).low ∧
          (exCandles4h.getD j default).low < (exCandles4h.getD (j - 1) default).low ∧
          (exCandles4h.getD j default).low < (exCandles4h.getD (j + 1) default).low)) := by
  have h : detect_liquidity_sweep_4h exCandles4h 3 = some ⟨.HIGH, .BEARISH, 105, 3⟩ := by
    norm_num [detect_liquidity_sweep_4h, scan_high_sweep, scan_low_sweep, SWEEP_THRESHOLD,
      exCandles4h]
  exact c5_sweep_geometry exCandles4h 3 ⟨.HIGH, .BEARISH, 105, 3⟩ h

/-! ## C6 -/

/-- C6 (counterexample): re-closing the already-CLOSED `exClosedRow` with the
same reason and the same exit data at a later tick changes the persisted row
(the exit time is overwritten), so the same-reason close is not a no-op; and
closing it with a different reason is not an error — the update succeeds and
overwrites the reason. -/
theorem c6_close_idempotence_counterexample :
    close_paper_trade exClosedRow 88000 (-20) .LOSS .STOP_LOSS (1 / 20) (27 / 5) 6 ≠
      exClosedRow ∧
    (close_paper_trade exClosedRow 88000 (-20) .LOSS .TAKE_PROFIT (1 / 20) (27 / 5) 6).status
      = .CLOSED ∧
    (close_paper_trade exClosedRow 88000 (-20) .LOSS .TAKE_PROFIT (1 / 20) (27 / 5) 6).close_reason
      = some .TAKE_PROFIT := by
  refine ⟨?_, rfl, rfl⟩
  intro habs
  have := congrArg PaperTradeRow.exit_time habs
  simp [close_paper_trade, exClosedRow] at this

/-- C6 (amended): `close_paper_trade` is one unconditional UPDATE: for every
row (whatever its current status or stored close reason) it sets the exit
columns to the supplied values — in particular `exit_time` becomes the
current call time and `close_reason` the supplied reason — and leaves the
identity and entry columns unchanged; no status check or reason comparison is
performed and no error path exists. -/
theorem c6_close_unconditional_update :
    ∀ (row : PaperTradeRow) (ep pnl : ℚ) (oc : Outcome) (cr : CloseReason)
      (slip fee : ℚ) (now : ℕ),
      (close_paper_trade row ep pnl oc cr slip fee now).status = .CLOSED ∧
      (close_paper_trade row ep pnl oc cr slip fee now).exit_price = some ep ∧
      (close_paper_trade row ep pnl oc cr slip fee now).exit_time = some now ∧
      (close_paper_trade row ep pnl oc cr slip fee now).pnl_usd = some pnl ∧
      (close_paper_trade row ep pnl oc cr slip fee now).outcome = some oc ∧
      (close_paper_trade row ep pnl oc cr slip fee now).close_reason = some cr ∧
      (close_paper_trade row ep pnl oc cr slip fee now).exit_fee_usd = some fee ∧
      (close_paper_trade row ep pnl oc cr slip fee now).id = row.id ∧
      (close_paper_trade row ep pnl oc cr slip fee now).direction = row.direction ∧
      (close_paper_trade row ep pnl oc cr slip fee now).entry_price = row.entry_price ∧
      (close_paper_trade row ep pnl oc cr slip fee now).entry_time = row.entry_time :=
  fun _ _ _ _ _ _ _ _ => ⟨rfl, rfl, rfl, rfl, rfl, rfl, rfl, rfl, rfl, rfl, rfl⟩

/-! ## C7 -/

/-- C7: the taker-fee formula holds (`calculate_fee` is the fixed rate times
the notional) and the fee is recorded once at entry (`entry_fee_usd` of the
persisted row), but the claimed exit-fee recording never happens: the
`Config` class of `paper_trading/config.py` has no `SLIPPAGE_PERCENT`
attribute, so every `_close_position` call raises `AttributeError` inside
the `close_paper_trade` argument list, the `except` swallows it, and
`close_position` returns `none` — no exit fee and no close is ever
persisted, at the concrete failing input included. -/
theorem c7_taker_fee :
    (∀ (position_usd : ℚ) (cfg : BotConfig),
      calculate_fee position_usd cfg = position_usd * cfg.FEE_PERCENT) ∧
    (∀ (signal : Signal) (current_price : ℚ) (db : SwingDB) (pc : PaperConfig)
        (cfg : BotConfig) (td : TradeData),
      execute_paper_trade signal current_price db (some pc) cfg = some td →
      td.entry_fee_usd = calculate_fee td.position_size_usd cfg) ∧
    Config_getattr "SLIPPAGE_PERCENT" = none ∧
    (∀ (row : PaperTradeRow) (market_price : ℚ) (reason : CloseReason)
        (cfg : BotConfig) (now : ℕ),
      close_position row market_price reason cfg now = none) ∧
    close_position exOpenRow 89900 .STOP_LOSS exBotConfig 12 = none := by
  refine ⟨fun _ _ => rfl, ?_, rfl, fun _ _ _ _ _ => rfl, rfl⟩
  intro sig price db pc cfg td h
  unfold execute_paper_trade at h
  dsimp only at h
  rcases hsl : calculate_stop_loss price (expected_direction sig.bias) sig.bias db with e | osr
  · rw [hsl] at h
    exact absurd h (by simp)
  · rw [hsl] at h
    rcases osr with - | sr
    · exact absurd h (by simp)
    · dsimp only at h
      rcases hps : calculate_position_size pc.account_balance price sr.price with e2 | position
      · rw [hps] at h
        exact absurd h (by simp)
      · rw [hps] at h
        dsimp only at h
        split_ifs at h with hz
        simp only [Option.some.injEq] at h
        subst h
        rfl

/-- C7 witness: the fee equations at the concrete accepted trade, and the
never-closing exit path at a second concrete close attempt. -/
theorem c7_taker_fee_witness :
    calculate_fee 900 exBotConfig = 900 * exBotConfig.FEE_PERCENT ∧
    exTrade.entry_fee_usd = calculate_fee exTrade.position_size_usd exBotConfig ∧
    close_position exOpenRow 93800 .TAKE_PROFIT exBotConfig 20 = none :=
  ⟨c7_taker_fee.1 900 exBotConfig,
   c7_taker_fee.2.1 exSignal 100 exDb exPaperConfig exBotConfig exTrade exTrade_run,
   c7_taker_fee.2.2.2.1 exOpenRow 93800 .TAKE_PROFIT exBotConfig 20⟩

/-! ## C8 -/

/-- C8 (counterexample): for the LONG position `exOpenRow` (entry 90000,
target 95000), price 93800 is only 76 percent of the target distance, so
`_should_activate_trailing_stop` returns false and the tick takes no action —
the trailing stop does not activate at 93800 as the scenario claims. -/
theorem c8_trailing_scenario_counterexample :
    should_activate_trailing_stop 90000 93800 95000 .LONG = false ∧
    check_position exOpenRow 93800 10 = .nothing := by
  constructor
  · norm_num [should_activate_trailing_stop, TRAILING_ACTIVATION, absQ]
  · norm_num [check_position, is_stop_loss_hit, is_take_profit_hit,
      should_activate_trailing_stop, TRAILING_ACTIVATION, MAX_TRADE_DURATION_HOURS,
      absQ, exOpenRow]

/-- C8 (amended): activation requires 80 percent of the 5000 target
distance, i.e. price 94000, not 93800: at 94000 the tick activates the
trailing stop at break-even 90000 (the `activate_trailing_stop` update sets
exactly that), and on the later drop to 89900 the position with the active
trailing stop closes with reason `TRAILING_STOP`, not `STOP_LOSS`. -/
theorem c8_trailing_scenario :
    check_position exOpenRow 94000 10 = .activateTrailing 90000 ∧
    activate_trailing_stop exOpenRow 90000 = exTrailedRow ∧
    check_position exTrailedRow 89900 11 = .closed .TRAILING_STOP 89900 ∧
    check_position exTrailedRow 89900 11 ≠ .closed .STOP_LOSS 89900 := by
  refine ⟨?_, ?_, ?_, ?_⟩
  · norm_num [check_position, is_stop_loss_hit, is_take_profit_hit,
      should_activate_trailing_stop, TRAILING_ACTIVATION, MAX_TRADE_DURATION_HOURS,
      absQ, exOpenRow]
  · rfl
  · norm_num [check_position, is_stop_loss_hit, is_take_profit_hit,
      should_activate_trailing_stop, TRAILING_ACTIVATION, MAX_TRADE_DURATION_HOURS,
      absQ, exTrailedRow]
  · intro habs
    have h3 : check_position exTrailedRow 89900 11 = .closed .TRAILING_STOP 89900 := by
      norm_num [check_position, is_stop_loss_hit, is_take_profit_hit,
        should_activate_trailing_stop, TRAILING_ACTIVATION, MAX_TRADE_DURATION_HOURS,
        absQ, exTrailedRow]
    rw [h3] at habs
    simp at habs

/-! ## C9 and C10 -/

/-- C9 (counterexample): the spec scenario asserts a buffered stop of
87304.96 for a fine swing low at 87480, but `calculate_stop_with_buffer`
computes 87480 times 0.998 = 87305.04; the 1:1 minimum take-profit is
92694.96 (not 92695.04) and the position size at balance 10000 is
100/2694.96 = 1250/33687 (not 100/2695.04 = 10000/269504). -/
theorem c9_stop_buffer_scenario_counterexample :
    calculate_stop_with_buffer 87480 .LONG ≠ 8730496 / 100 ∧
    calculate_minimum_take_profit 90000 (calculate_stop_with_buffer 87480 .LONG) .LONG ≠
      9269504 / 100 ∧
    ((calculate_position_size 10000 90000
        (calculate_stop_with_buffer 87480 .LONG)).toOption.map PositionSize.btc) =
      some (1250 / 33687) ∧
    (1250 : ℚ) / 33687 ≠ 10000 / 269504 := by
  refine ⟨?_, ?_, ?_, ?_⟩ <;>
    norm_num [calculate_stop_with_buffer, calculate_minimum_take_profit, calculate_position_size,
      BUFFER_BELOW_LOW, MIN_RR, absQ, Except.toOption]

/-- C9 (amended): entry 90000 LONG with fine swing low 87480 gives buffered
stop 87305.04 (87480 times 0.998), 1:1 minimum take-profit 92694.96, and at
balance 10000 (risk 100) a position size of 100/2694.96, about 0.037107
units (strictly between 0.03710 and 0.03711), under the exact arithmetic of
`calculate_stop_with_buffer`, `calculate_minimum_take_profit` and
`calculate_position_size`. -/
theorem c9_stop_buffer_scenario :
    calculate_stop_with_buffer 87480 .LONG = 2182626 / 25 ∧
    calculate_minimum_take_profit 90000 (2182626 / 25) .LONG = 2317374 / 25 ∧
    calculate_position_size 10000 90000 (2182626 / 25) =
      .ok { btc := 1250 / 33687, usd := 12500000 / 3743, risk_amount := 100,
            stop_distance := 67374 / 25, stop_distance_percent := 3743 / 1250 } ∧
    (100 : ℚ) / (269496 / 100) = 1250 / 33687 ∧
    (3710 : ℚ) / 100000 < 1250 / 33687 ∧ (1250 : ℚ) / 33687 < 3711 / 100000 := by
  refine ⟨?_, ?_, ?_, ?_, ?_, ?_⟩ <;>
    norm_num [calculate_stop_with_buffer, calculate_minimum_take_profit, calculate_position_size,
      BUFFER_BELOW_LOW, MIN_RR, absQ, PositionSize.mk.injEq]

/-- C10: `calculate_position_size` succeeds exactly when balance, entry and
stop are all positive and entry differs from stop; otherwise it raises an
input-validation error, so the division by the stop distance is never reached
with a zero divisor. -/
theorem c10_position_size_guard (b e s : ℚ) :
    (∃ p, calculate_position_size b e s = .ok p) ↔ (0 < b ∧ 0 < e ∧ 0 < s ∧ e ≠ s) := by
  unfold calculate_position_size
  dsimp only
  rw [absQ_eq_abs]
  split_ifs with h1 h2 h3 h4
  · constructor
    · rintro ⟨p, hp⟩; simp at hp
    · rintro ⟨hb, -, -, -⟩; linarith
  · constructor
    · rintro ⟨p, hp⟩; simp at hp
    · rintro ⟨-, he, -, -⟩; linarith
  · constructor
    · rintro ⟨p, hp⟩; simp at hp
    · rintro ⟨-, -, hs, -⟩; linarith
  · rw [abs_eq_zero, sub_eq_zero] at h4
    constructor
    · rintro ⟨p, hp⟩; simp at hp
    · rintro ⟨-, -, -, hne⟩; exact absurd h4 hne
  · push_neg at h1 h2 h3
    rw [abs_eq_zero, sub_eq_zero] at h4
    constructor
    · rintro ⟨p, -⟩; exact ⟨h1, h2, h3, h4⟩
    · intro _; exact ⟨_, rfl⟩

end TradingBot
